import Mathlib

/-!
# Verification of the inorbit-connector runtime against its specification

Shallow embedding of `inorbit_connector` (commands.py, connector.py, models.py,
fleet.py) in Lean 4, with theorems settling specification claims about
command-argument parsing, the command dispatch bridge, the lifecycle
orchestrator, the paced execution loop, configuration validation, pose/map
publishing, and the map fetch coordinator.
-/

/-! ## Python value model

The function `parse_custom_command_args` receives values deserialized from the
edge-sdk.  `PyVal` models the Python values that can appear there: strings,
bytes, integers, booleans, `None`, lists, and tuples (tuples stand for the
non-list iterables).  `PyValList` is a specialized list so that decidable
equality can be derived for the mutually inductive pair. -/

mutual
/-- A Python value as received by the command-argument parser. -/
inductive PyVal where
  | str (s : String)
  | bytes (b : List Nat)
  | int (n : Int)
  | bool (b : Bool)
  | pynone
  | list (elems : PyValList)
  | tuple (elems : PyValList)
deriving DecidableEq, Repr
/-- A list of Python values (elements of a Python list or tuple). -/
inductive PyValList where
  | nil
  | cons (head : PyVal) (tail : PyValList)
deriving DecidableEq, Repr
end

/-- Convert the specialized element list into a Lean list. -/
def PyValList.toList : PyValList → List PyVal
  | .nil => []
  | .cons x xs => x :: xs.toList

/-- Build the specialized element list from a Lean list. -/
def PyValList.ofList : List PyVal → PyValList
  | [] => .nil
  | x :: xs => .cons x (ofList xs)

/-- The Python type name of a value, as interpolated by `type(...)` into the
error messages of `parse_custom_command_args`. -/
def pyTypeName : PyVal → String
  | .str _ => "str"
  | .bytes _ => "bytes"
  | .int _ => "int"
  | .bool _ => "bool"
  | .pynone => "NoneType"
  | .list _ => "list"
  | .tuple _ => "tuple"

mutual
/-- Canonical representative of a value under Python `==` as used for dict
keys: Python identifies `True` with `1` and `False` with `0`, also inside
tuples.  Values with equal canonical forms are the same dict key. -/
def canonKey : PyVal → PyVal
  | .bool b => .int (if b then 1 else 0)
  | .tuple xs => .tuple (canonKeyList xs)
  | .list xs => .list (canonKeyList xs)
  | v => v
/-- Elementwise canonicalization of a Python list or tuple. -/
def canonKeyList : PyValList → PyValList
  | .nil => .nil
  | .cons x xs => .cons (canonKey x) (canonKeyList xs)
end

/-- Python `==` on dict keys: equality of canonical forms. -/
def pyEq (a b : PyVal) : Bool := decide (canonKey a = canonKey b)

mutual
/-- Whether a Python value is hashable and can therefore be used as a dict
key: lists are unhashable, tuples are hashable when all their elements are,
every other value in the grammar is hashable. -/
def pyHashable : PyVal → Bool
  | .list _ => false
  | .tuple xs => pyHashableList xs
  | _ => true
/-- Whether all elements of a Python tuple are hashable. -/
def pyHashableList : PyValList → Bool
  | .nil => true
  | .cons x xs => pyHashable x && pyHashableList xs
end

/-! ## Python dict model

Association lists with CPython dict semantics: insertion updates the value of
an existing key in place (keeping the originally inserted key object and its
position) and appends unknown keys at the end. -/

/-- Insert a key/value pair with CPython dict semantics: update the value of
the first entry holding an equal key (keeping the originally inserted key
object), or append the pair when the key is new. -/
def dictInsert : List (PyVal × PyVal) → PyVal → PyVal → List (PyVal × PyVal)
  | [], k, v => [(k, v)]
  | p :: rest, k, v =>
    if pyEq p.1 k then (p.1, v) :: rest else p :: dictInsert rest k v

/-- Look a key up in the dict model (Python `d[k]` / `d.get(k)`). -/
def dictLookup (d : List (PyVal × PyVal)) (k : PyVal) : Option PyVal :=
  (d.find? (fun p => pyEq p.1 k)).map Prod.snd

/-- Fold key/value pairs into a dict starting from `d`, mirroring the dict
comprehension in `parse_custom_command_args`.  Each key is hashed as it is
inserted; the first unhashable key aborts the comprehension with a TypeError
carrying that key's type name. -/
def dictFoldFrom (d : List (PyVal × PyVal)) : List (PyVal × PyVal) → Except String (List (PyVal × PyVal))
  | [] => .ok d
  | (k, v) :: rest =>
    if pyHashable k then dictFoldFrom (dictInsert d k v) rest
    else .error (pyTypeName k)

/-- The pairs `zip(args_list[::2], args_list[1::2])` of an even-length list:
consecutive elements grouped two by two, in order. -/
def consecutivePairs : List PyVal → List (PyVal × PyVal)
  | k :: v :: rest => (k, v) :: consecutivePairs rest
  | _ => []

/-- The conversion `list(args_list_raw)` guarded by the string/bytes
exclusion: strings and bytes are rejected before the conversion is attempted,
lists and tuples convert, and every other value raises the same ValueError
(modelling the TypeError from `list(...)` that the source converts).  Both
rejection paths produce the identical message, so they collapse into `none`. -/
def asIterable : PyVal → Option (List PyVal)
  | .str _ => none
  | .bytes _ => none
  | .list xs => some xs.toList
  | .tuple xs => some xs.toList
  | _ => none

/-- Result of `parse_custom_command_args`: a normal return, a raised
ValueError, a raised CommandFailure, or a raised TypeError (from hashing an
unhashable dict key). -/
inductive ParseResult where
  | ok (script_name : String) (params : List (PyVal × PyVal))
  | valueError (msg : String)
  | commandFailure (execution_status_details : String) (stderr : String)
  | typeError (msg : String)
deriving DecidableEq, Repr

/-- Shallow embedding of `parse_custom_command_args` from
`inorbit_connector/commands.py` (the copy in `connector.py` is identical code
up to message formatting).  The checks appear in source order: top-level list,
length two, string script name, list-like arguments, even length, then the
dict comprehension. -/
def parse_custom_command_args (custom_command_args : PyVal) : ParseResult :=
  match custom_command_args with
  | .list (.cons script_name_v (.cons args_list_raw .nil)) =>
    match script_name_v with
    | .str script_name =>
      match asIterable args_list_raw with
      | none => .valueError "Arguments must be a list-like container"
      | some args_list =>
        if args_list.length % 2 ≠ 0 then
          .commandFailure "Invalid script arguments provided"
            ("The script arguments must be a list of key-value pairs, got "
              ++ toString args_list.length ++ " elements")
        else
          match dictFoldFrom [] (consecutivePairs args_list) with
          | .ok params => .ok script_name params
          | .error ty => .typeError ("unhashable type: " ++ ty)
    | _ => .valueError "Script name must be a string"
  | .list _ =>
    .valueError "Expected custom command arguments to be a list with two elements."
  | v =>
    .valueError ("Expected custom command arguments to be a list, got " ++ pyTypeName v)

/-! ## Command dispatch bridge

Embedding of `FleetConnector._handle_command_exception` and the
`handler_wrapper` closure registered by
`FleetConnector.__register_custom_command_handler_for_session` in
`inorbit_connector/connector.py`. -/

/-- The result code of a command execution (`CommandResultCode` in
connector.py; the wire values are the strings "0" and "1"). -/
inductive CommandResultCode where
  | SUCCESS
  | FAILURE
deriving DecidableEq, Repr

/-- An exception escaping a command handler: either the structured
`CommandFailure` (carrying `execution_status_details` and `stderr`) defined in
connector.py, or any other exception, represented by its class name and its
`str(...)` message. -/
inductive PyException where
  | CommandFailure (execution_status_details : String) (stderr : String)
  | other (className : String) (message : String)
deriving DecidableEq, Repr

/-- Python `str(exception)`.  `CommandFailure.__init__` passes
`execution_status_details` to `Exception.__init__`, so that is its message. -/
def PyException.message : PyException → String
  | .CommandFailure d _ => d
  | .other _ msg => msg

/-- Python `exception.__class__.__name__`. -/
def PyException.className : PyException → String
  | .CommandFailure _ _ => "CommandFailure"
  | .other c _ => c

/-- One invocation of `options["result_function"]`, recording the positional
result code and the keyword arguments passed. -/
structure ResultCall where
  result_code : CommandResultCode
  execution_status_details : Option String
  stdout : Option String
  stderr : Option String
deriving DecidableEq, Repr

/-- Embedding of `FleetConnector._handle_command_exception`: the single
result-function invocation it performs for a given exception.  A structured
`CommandFailure` is reported verbatim; any other exception is reported with
the generic summary, falling back to the class name when `str(exception)` is
falsy (the empty string). -/
def handle_command_exception (exception : PyException) : ResultCall :=
  match exception with
  | .CommandFailure details stderr =>
    { result_code := .FAILURE
      execution_status_details := some details
      stdout := none
      stderr := some stderr }
  | .other className message =>
    { result_code := .FAILURE
      execution_status_details := some "An error occurred executing custom command"
      stdout := none
      stderr := some (if message = "" then className else message) }

/-- Behavior of one dispatched handler invocation, as observed by the
`handler_wrapper` closure: `run_coroutine_threadsafe(...).result()` either
returns normally or re-raises the exception raised by the async handler. -/
inductive HandlerOutcome where
  | completes
  | raises (e : PyException)
deriving DecidableEq, Repr

/-- Embedding of the `handler_wrapper` closure: the `try` body waits for the
handler; `except Exception` routes any raised exception to
`_handle_command_exception`.  The value is the list of result-function calls
made by the wrapper itself; an `Except.error` would mean an exception escaped
to the transport thread that invoked the registered entry point. -/
def handler_wrapper (outcome : HandlerOutcome) : Except PyException (List ResultCall) :=
  match outcome with
  | .completes => .ok []
  | .raises e => .ok [handle_command_exception e]

/-! ## Lifecycle orchestrator

Embedding of `FleetConnector.start` and `FleetConnector.stop` from
`inorbit_connector/connector.py`.  The constructor creates a
`threading.Thread` object that is never started until `start()` is called;
`start()` replaces it with a fresh thread whenever the current one is not
alive; `stop()` sets the stop event and joins with a 5 second timeout. -/

namespace FleetConnector

/-- Status of the worker `threading.Thread` object currently referenced by
the connector.  `is_alive()` is true exactly for `running`. -/
inductive ThreadStatus where
  | unstarted
  | running
  | finished
deriving DecidableEq, Repr

/-- The lifecycle-relevant state of a `FleetConnector`: the worker thread's
status and identity, how many threads were ever spawned, and the stop event
flag. -/
structure ConnectorState where
  thread_status : ThreadStatus
  thread_id : Nat
  threads_spawned : Nat
  stop_event_is_set : Bool
deriving DecidableEq, Repr

/-- State after `__init__`: a `Thread` object exists (identity 0) but was
never started, no thread was ever spawned, the stop event is clear. -/
def initState : ConnectorState :=
  { thread_status := .unstarted
    thread_id := 0
    threads_spawned := 0
    stop_event_is_set := false }

/-- Python `self.__thread.is_alive()`. -/
def is_alive (s : ConnectorState) : Bool := s.thread_status == .running

/-- Embedding of `FleetConnector.start`: when the current thread is not
alive, clear the stop event, create a fresh `Thread` (a new identity) and
start it; otherwise do nothing. -/
def start (s : ConnectorState) : ConnectorState :=
  if is_alive s then s
  else
    { thread_status := .running
      thread_id := s.threads_spawned + 1
      threads_spawned := s.threads_spawned + 1
      stop_event_is_set := false }

/-- Outcome of `FleetConnector.stop`: a normal return with the new state, the
RuntimeError that `Thread.join` raises for a thread that was never started,
or the `Exception("Thread did not stop in time")` raised when the thread is
still alive after the bounded join. -/
inductive StopResult where
  | ok (s : ConnectorState)
  | runtimeError (msg : String)
  | timeoutError (msg : String)
deriving DecidableEq, Repr

/-- Embedding of `FleetConnector.stop`: set the stop event, then
`self.__thread.join(timeout=5)`, then raise if the thread is still alive.
`worker_exits_within_timeout` abstracts whether a running worker observes the
stop flag and exits within the 5 second bound; the join itself is bounded, so
`stop` always returns control to its caller. -/
def stop (s : ConnectorState) (worker_exits_within_timeout : Bool) : StopResult :=
  let s := { s with stop_event_is_set := true }
  match s.thread_status with
  | .unstarted => .runtimeError "cannot join thread before it is started"
  | .finished => .ok s
  | .running =>
    if worker_exits_within_timeout then .ok { s with thread_status := .finished }
    else .timeoutError "Thread did not stop in time"

/-! ## Paced execution loop

Embedding of `FleetConnector.__run_loop` (the identical coroutine also
appears as `Fleet.__run_loop` in fleet.py): while the stop event is not set,
gather the user execution-loop callback with the pacing sleep; any exception
is caught, logged, and followed by a fixed 1 second cooldown sleep before the
next iteration. -/

/-- The environment one loop iteration observes: the value of
`stop_event.is_set()` read at the loop head, and whether the gathered
execution-loop body raises. -/
structure LoopIterationEnv where
  stop_is_set : Bool
  body_raises : Bool
deriving DecidableEq, Repr

/-- What one executed loop iteration did: whether its body raised and whether
the 1 second error cooldown sleep ran afterwards. -/
structure LoopIterationRecord where
  body_raised : Bool
  cooldown_slept : Bool
deriving DecidableEq, Repr

/-- Embedding of the `while not self.__stop_event.is_set()` loop over a
finite schedule of iteration environments.  Returns the records of the
iterations that ran and whether the loop exited by observing the stop flag
(`false` means the schedule ran out with the loop still going). -/
def run_loop : List LoopIterationEnv → List LoopIterationRecord × Bool
  | [] => ([], false)
  | env :: rest =>
    if env.stop_is_set then ([], true)
    else
      let record : LoopIterationRecord :=
        { body_raised := env.body_raises, cooldown_slept := env.body_raises }
      let (trace, exited) := run_loop rest
      (record :: trace, exited)

end FleetConnector

/-! ## Configuration models

Embedding of the pydantic models in `inorbit_connector/models.py` that the
claims touch: `RobotConfig`, `MapConfig`, `ConnectorConfig`, the `fleet`
field validators, and `ConnectorConfig.to_singular_config`.  Float-valued
fields are carried as rationals; they are only ever passed through.  Fields
whose content never matters to any claim (`connector_config`, `logging`,
`log_level`, camera details beyond the URL) are represented by their
pass-through payloads or omitted. -/

/-- Camera configuration entry of a robot (edge-sdk `CameraConfig`),
represented by its video URL. -/
structure CameraConfig where
  video_url : String
deriving DecidableEq, Repr

/-- Embedding of `RobotConfig`: a robot id and its cameras. -/
structure RobotConfig where
  robot_id : String
  cameras : List CameraConfig := []
deriving DecidableEq, Repr

/-- Embedding of `MapConfig`: map metadata plus the path of the PNG file. -/
structure MapConfig where
  map_id : String
  map_label : Option String := none
  origin_x : Rat
  origin_y : Rat
  resolution : Rat
  format_version : Nat := 2
  file : String
deriving DecidableEq, Repr

/-- Embedding of `ConnectorConfig` (the fields the claims exercise; the
remaining fields are opaque payloads carried unchanged by every operation
modelled here). -/
structure ConnectorConfig where
  api_key : Option String := none
  api_url : String
  connector_type : String
  update_freq : Rat := 1
  location_tz : String := "UTC"
  user_scripts_dir : Option String := none
  account_id : Option String := none
  inorbit_robot_key : Option String := none
  maps : List (String × MapConfig) := []
  env_vars : List (String × String) := []
  fleet : List RobotConfig
deriving DecidableEq, Repr

/-- Embedding of the field validator
`ConnectorConfig.must_contain_at_least_one_robot`. -/
def must_contain_at_least_one_robot (fleet : List RobotConfig) :
    Except String (List RobotConfig) :=
  if fleet.length < 1 then .error "Fleet must contain at least one robot"
  else .ok fleet

/-- Embedding of the field validator `ConnectorConfig.robot_ids_must_be_unique`:
`len(set(ids)) != len(fleet)` is the size of the deduplicated id list against
the fleet length. -/
def robot_ids_must_be_unique (fleet : List RobotConfig) :
    Except String (List RobotConfig) :=
  if (fleet.map (fun r => r.robot_id)).dedup.length ≠ fleet.length then
    .error "Robot ids must be unique"
  else .ok fleet

/-- The two `fleet` field validators as pydantic runs them at construction,
in declaration order. -/
def validate_fleet (fleet : List RobotConfig) : Except String (List RobotConfig) :=
  match must_contain_at_least_one_robot fleet with
  | .error e => .error e
  | .ok f => robot_ids_must_be_unique f

/-- Embedding of `ConnectorConfig.to_singular_config`: filter the fleet down
to the entries with the requested robot id, raise ValueError unless exactly
one remains, then rebuild the configuration (re-running the fleet validators,
as constructing `self.__class__(...)` does) with every non-fleet field taken
from `self`. -/
def ConnectorConfig.to_singular_config (c : ConnectorConfig) (robot_id : String) :
    Except String ConnectorConfig :=
  let filtered_fleet := c.fleet.filter (fun r => r.robot_id == robot_id)
  if filtered_fleet.length ≠ 1 then
    .error ("Expected 1 robot configuration for robot " ++ robot_id ++ ", got "
      ++ toString filtered_fleet.length)
  else
    match validate_fleet filtered_fleet with
    | .error e => .error e
    | .ok f => .ok { c with fleet := f }

/-! ## Pose and map publishing

Embedding of `FleetConnector.publish_robot_pose` and
`FleetConnector.publish_robot_map` from `inorbit_connector/connector.py`.
The per-robot session is observed through the telemetry messages it is asked
to publish, collected in order as `PublishEvent`s.  `frame_id` is optional on
the pose path because its Python default is `None`, and a `None` frame id
flows into `publish_robot_map`, where `maps.get(None)` finds nothing. -/

namespace FleetConnector

/-- A telemetry publish performed on a robot's session. -/
inductive PublishEvent where
  | mapPublish (robot_id : String) (file : String) (map_id : String)
      (map_label : Option String) (frame_id : String) (x y : Rat)
      (resolution : Rat) (is_update : Bool)
  | posePublish (robot_id : String) (x y yaw : Rat) (frame_id : Option String)
deriving DecidableEq, Repr

/-- Whether an event is a map publish. -/
def PublishEvent.isMap : PublishEvent → Bool
  | .mapPublish _ _ _ _ _ _ _ _ _ => true
  | _ => false

/-- The per-robot publishing state: `self.__last_published_frame_ids`. -/
structure PublishState where
  last_published_frame_ids : List (String × String) := []
deriving DecidableEq, Repr

/-- Python dict assignment `d[k] = v` on a string-keyed dict: update the
value in place for an existing key, append a new key at the end. -/
def alSet : List (String × String) → String → String → List (String × String)
  | [], k, v => [(k, v)]
  | p :: rest, k, v =>
    if p.1 == k then (p.1, v) :: rest else p :: alSet rest k v

/-- Embedding of `FleetConnector.publish_robot_map`: look the frame id up in
the maps configuration; when found, publish the map descriptor on the robot's
session and record the frame id as the robot's last published one; when
missing, log an error and send nothing (in this source the fetch coordinator
is absent from `connector.py`, see the spec-modelled section below). -/
def publish_robot_map (cfg : ConnectorConfig) (s : PublishState)
    (robot_id : String) (frame_id : Option String) (is_update : Bool) :
    PublishState × List PublishEvent :=
  match frame_id with
  | some f =>
    match cfg.maps.lookup f with
    | some m =>
      ({ last_published_frame_ids := alSet s.last_published_frame_ids robot_id f },
       [.mapPublish robot_id m.file m.map_id m.map_label f m.origin_x m.origin_y
          m.resolution is_update])
    | none => (s, [])
  | none => (s, [])

/-- Embedding of `FleetConnector.publish_robot_pose`: when the frame id
differs from the robot's last published frame id, publish the map first (as
an update); then always publish the pose. -/
def publish_robot_pose (cfg : ConnectorConfig) (s : PublishState)
    (robot_id : String) (x y yaw : Rat) (frame_id : Option String) :
    PublishState × List PublishEvent :=
  let last_published_frame_id := s.last_published_frame_ids.lookup robot_id
  if frame_id ≠ last_published_frame_id then
    let (s2, events) := publish_robot_map cfg s robot_id frame_id true
    (s2, events ++ [.posePublish robot_id x y yaw frame_id])
  else
    (s, [.posePublish robot_id x y yaw frame_id])

/-! ## Map fetch coordinator (modelled from the spec)

The tests in `tests/test_connector.py` exercise `_schedule_map_fetch`,
`_fetch_and_publish_map` and the `__pending_map_fetches` set, but the
corresponding code is not present in the provided `connector.py`; only its
tests and the specification describe it. -/

/-- Pending-fetch bookkeeping of the map fetch coordinator. -/
structure FetchCoordinatorState where
  pending_map_fetches : List (String × String) := []
  scheduled_tasks : List (String × String) := []
deriving DecidableEq, Repr

/-- Modelled from the spec: `_schedule_map_fetch`, absent from the provided
`connector.py`.  Scheduling a fetch requires a running execution context; if
none is active the request is silently dropped.  If the `(robotId, frameId)`
pair is already pending, the request is a no-op (dedup).  Otherwise the pair
is added to the pending set and one async fetch-and-publish task is submitted
to the execution context. -/
def schedule_map_fetch (loop_running : Bool) (s : FetchCoordinatorState)
    (robot_id frame_id : String) : FetchCoordinatorState :=
  if !loop_running then s
  else if (robot_id, frame_id) ∈ s.pending_map_fetches then s
  else
    { pending_map_fetches := (robot_id, frame_id) :: s.pending_map_fetches
      scheduled_tasks := s.scheduled_tasks ++ [(robot_id, frame_id)] }

/-- Modelled from the spec: the completion of the `_fetch_and_publish_map`
task, absent from the provided `connector.py`.  Whether the fetch produced a
map or failed, the final step that always runs removes `(robotId, frameId)`
from the pending set. -/
def fetch_and_publish_map_complete (s : FetchCoordinatorState)
    (robot_id frame_id : String) (_fetch_succeeded : Bool) : FetchCoordinatorState :=
  { s with pending_map_fetches := s.pending_map_fetches.erase (robot_id, frame_id) }

end FleetConnector

/-! ## Specification-side helper definitions

Definitions written from the claims' wording, used to compare the embedded
source functions against the specification. -/

/-- Claim-side characterization of a well-shaped input to
`parse_custom_command_args`: a two-element list whose first element is a
string script name and whose second element is a non-string, non-bytes
iterable; returns the script name and the converted argument list. -/
def wellFormedArgs (v : PyVal) : Option (String × List PyVal) :=
  match v with
  | .list (.cons (.str s) (.cons a .nil)) => (asIterable a).map (fun l => (s, l))
  | _ => none

/-- Claim-side description of the parsed mapping: the value bound to a key is
the value paired with the last occurrence of that key in the pair list. -/
def lastWins (ps : List (PyVal × PyVal)) (k : PyVal) : Option PyVal :=
  (ps.reverse.find? (fun p => pyEq p.1 k)).map Prod.snd

/-- The dict comprehension's pure fold (the dict produced when every key is
hashable): fold the pairs in order, each insertion updating an existing key
in place (last value wins) or appending a new one. -/
def dictOfPairs (ps : List (PyVal × PyVal)) : List (PyVal × PyVal) :=
  ps.foldl (fun d p => dictInsert d p.1 p.2) []

/-! ## Lemmas about the dict model -/

theorem pyEq_iff (a b : PyVal) : pyEq a b = true ↔ canonKey a = canonKey b := by
  simp [pyEq]

theorem dictLookup_nil (k : PyVal) : dictLookup [] k = none := rfl

theorem dictLookup_cons (p : PyVal × PyVal) (d : List (PyVal × PyVal)) (k : PyVal) :
    dictLookup (p :: d) k = if pyEq p.1 k then some p.2 else dictLookup d k := by
  by_cases h : pyEq p.1 k = true <;> simp [dictLookup, List.find?, h]

theorem dictLookup_dictInsert (d : List (PyVal × PyVal)) (k v q : PyVal) :
    dictLookup (dictInsert d k v) q =
      if pyEq k q then some v else dictLookup d q := by
  induction d with
  | nil =>
    by_cases h : pyEq k q = true <;> simp [dictInsert, dictLookup_cons, h]
  | cons p rest ih =>
    by_cases hpk : pyEq p.1 k = true
    · have hpk' := (pyEq_iff _ _).mp hpk
      by_cases hpq : pyEq p.1 q = true
      · have hpq' := (pyEq_iff _ _).mp hpq
        have hkq : pyEq k q = true := (pyEq_iff _ _).mpr (hpk' ▸ hpq')
        simp [dictInsert, hpk, dictLookup_cons, hpq, hkq]
      · have hkq : pyEq k q = false := by
          rw [Bool.eq_false_iff]
          intro hc
          exact hpq ((pyEq_iff _ _).mpr (hpk'.trans ((pyEq_iff _ _).mp hc)))
        simp [dictInsert, hpk, dictLookup_cons, hpq, hkq]
    · by_cases hpq : pyEq p.1 q = true
      · have hpq' := (pyEq_iff _ _).mp hpq
        have hkq : pyEq k q = false := by
          rw [Bool.eq_false_iff]
          intro hc
          exact hpk ((pyEq_iff _ _).mpr (hpq'.trans ((pyEq_iff _ _).mp hc).symm))
        simp [dictInsert, hpk, dictLookup_cons, hpq, hkq]
      · simp [dictInsert, hpk, dictLookup_cons, hpq, ih]

theorem dictFoldFrom_ok (ps : List (PyVal × PyVal)) (d : List (PyVal × PyVal))
    (h : ∀ p ∈ ps, pyHashable p.1 = true) :
    dictFoldFrom d ps = .ok (ps.foldl (fun d p => dictInsert d p.1 p.2) d) := by
  induction ps generalizing d with
  | nil => rfl
  | cons p rest ih =>
    have hp : pyHashable p.1 = true := h p (List.mem_cons_self p rest)
    simp only [List.foldl_cons]
    cases p with
    | mk k v => simp [dictFoldFrom, hp, ih _ (fun q hq => h q (List.mem_cons_of_mem _ hq))]

theorem dictFoldFrom_error (ps : List (PyVal × PyVal)) (d : List (PyVal × PyVal))
    (h : ¬ ∀ p ∈ ps, pyHashable p.1 = true) :
    ∃ e, dictFoldFrom d ps = .error e := by
  induction ps generalizing d with
  | nil => exact absurd (by intro p hp; cases hp) h
  | cons p rest ih =>
    by_cases hp : pyHashable p.1 = true
    · have hrest : ¬ ∀ q ∈ rest, pyHashable q.1 = true := by
        intro hc
        exact h (by
          intro q hq
          rcases List.mem_cons.mp hq with h1 | h2
          · exact h1 ▸ hp
          · exact hc q h2)
      cases p with
      | mk k v =>
        obtain ⟨e, he⟩ := ih hrest (d := dictInsert d k v)
        exact ⟨e, by simp [dictFoldFrom, hp] at he ⊢; exact he⟩
    · cases p with
      | mk k v => exact ⟨pyTypeName k, by simp [dictFoldFrom, hp]⟩

theorem dictLookup_dictOfPairs (ps : List (PyVal × PyVal)) (q : PyVal) :
    dictLookup (dictOfPairs ps) q = lastWins ps q := by
  induction ps using List.reverseRecOn with
  | nil => rfl
  | append_singleton ps p ih =>
    have hfold : dictOfPairs (ps ++ [p]) = dictInsert (dictOfPairs ps) p.1 p.2 := by
      simp [dictOfPairs, List.foldl_append]
    have hlast : lastWins (ps ++ [p]) q =
        if pyEq p.1 q then some p.2 else lastWins ps q := by
      by_cases h : pyEq p.1 q = true <;>
        simp [lastWins, List.reverse_append, List.find?, h]
    rw [hfold, dictLookup_dictInsert, hlast, ih]

/-! ## Claim C2: parsing well-formed inputs -/

/-- C2 (counterexample): the claim quantifies over every two-element list
whose first element is a string and whose second is a non-string, non-bytes
iterable of even length, and asserts the function returns a pair.  The
well-formed input `["s.sh", [[], "v"]]` has an even-length argument list, yet
the function raises a TypeError (a Python list is not hashable and cannot be
a dict key), so it does not return the claimed pair. -/
theorem parse_custom_command_args_unhashable_key_counterexample :
    parse_custom_command_args
      (.list (.cons (.str "s.sh")
        (.cons (.list (.cons (.list .nil) (.cons (.str "v") .nil))) .nil))) =
      .typeError "unhashable type: list" := rfl

/-- C2 (amended): for every two-element list `[scriptName, argv]` with a
string script name and a non-string, non-bytes iterable `argv` of even length
whose even-position elements (the keys) are all hashable, the function
returns the pair of the script name and the dict obtained by folding the
consecutive pairs in order, and looking any key up in that dict yields the
value paired with the last occurrence of the key (values are carried
unchanged, with their original type). -/
theorem parse_custom_command_args_ok_last_wins (script : String) (argv : PyVal)
    (args : List PyVal)
    (h1 : asIterable argv = some args)
    (h2 : args.length % 2 = 0)
    (h3 : ∀ p ∈ consecutivePairs args, pyHashable p.1 = true) :
    parse_custom_command_args (.list (.cons (.str script) (.cons argv .nil))) =
      .ok script (dictOfPairs (consecutivePairs args)) ∧
    ∀ k, dictLookup (dictOfPairs (consecutivePairs args)) k =
      lastWins (consecutivePairs args) k := by
  constructor
  · simp [parse_custom_command_args, h1, h2, dictFoldFrom_ok _ _ h3, dictOfPairs]
  · intro k
    exact dictLookup_dictOfPairs _ k

/-- C2 (witness): the specification's own example `["s.sh", ["x", "1", "y",
"2"]]` parses to `("s.sh", {"x": "1", "y": "2"})`, and with the duplicate-key
list `["x", 1, "x", True]` the lookup of `"x"` yields `True`. -/
theorem parse_custom_command_args_ok_last_wins_witness :
    (asIterable (.list (.cons (.str "x") (.cons (.str "1")
        (.cons (.str "y") (.cons (.str "2") .nil))))) =
      some [.str "x", .str "1", .str "y", .str "2"] ∧
     ([PyVal.str "x", .str "1", .str "y", .str "2"].length % 2 = 0) ∧
     parse_custom_command_args (.list (.cons (.str "s.sh")
        (.cons (.list (.cons (.str "x") (.cons (.str "1")
          (.cons (.str "y") (.cons (.str "2") .nil))))) .nil))) =
      .ok "s.sh" [(.str "x", .str "1"), (.str "y", .str "2")]) ∧
    (parse_custom_command_args (.list (.cons (.str "s.sh")
        (.cons (.list (.cons (.str "x") (.cons (.int 1)
          (.cons (.str "x") (.cons (.bool true) .nil))))) .nil))) =
      .ok "s.sh" [(.str "x", .bool true)] ∧
     dictLookup (dictOfPairs (consecutivePairs [.str "x", .int 1, .str "x", .bool true]))
        (.str "x") = lastWins (consecutivePairs [.str "x", .int 1, .str "x", .bool true])
        (.str "x")) := by
  refine ⟨⟨rfl, rfl, ?_⟩, ?_, ?_⟩
  · exact (parse_custom_command_args_ok_last_wins "s.sh"
      (.list (.cons (.str "x") (.cons (.str "1")
        (.cons (.str "y") (.cons (.str "2") .nil)))))
      [.str "x", .str "1", .str "y", .str "2"] rfl rfl (by decide)).1
  · exact (parse_custom_command_args_ok_last_wins "s.sh"
      (.list (.cons (.str "x") (.cons (.int 1)
        (.cons (.str "x") (.cons (.bool true) .nil)))))
      [.str "x", .int 1, .str "x", .bool true] rfl rfl (by decide)).1
  · exact (parse_custom_command_args_ok_last_wins "s.sh"
      (.list (.cons (.str "x") (.cons (.int 1)
        (.cons (.str "x") (.cons (.bool true) .nil)))))
      [.str "x", .int 1, .str "x", .bool true] rfl rfl (by decide)).2 _

/-! ## Claim C3: failure classification of the parser -/

/-- C3 (counterexample): the claim says every bad input falls into exactly
two failure channels (handled CommandFailure for odd length, synchronous
ValueError for malformed shape) and that no other input raises.  The
well-shaped, even-length input `["t.sh", [([],), 1]]` raises a TypeError —
its key is a tuple containing a list, which is unhashable — so a third
failure channel exists. -/
theorem parse_custom_command_args_classification_counterexample :
    parse_custom_command_args
      (.list (.cons (.str "t.sh")
        (.cons (.list (.cons (.tuple (.cons (.list .nil) .nil))
          (.cons (.int 1) .nil))) .nil))) =
      .typeError "unhashable type: tuple" := rfl

/-- C3 (amended): every input to `parse_custom_command_args` is classified
as follows — a malformed top-level shape (non-list top level, wrong arity,
non-string script name, or string/bytes/non-iterable arguments) raises a
ValueError to the caller; a well-shaped input with an odd-length argument
list raises the handled CommandFailure whose summary mentions "Invalid
script arguments"; a well-shaped even-length input whose keys are all
hashable returns normally; and a well-shaped even-length input containing an
unhashable key raises a TypeError. -/
theorem parse_custom_command_args_classification (v : PyVal) :
    match wellFormedArgs v with
    | none => ∃ msg, parse_custom_command_args v = .valueError msg
    | some (s, args) =>
      if args.length % 2 = 1 then
        ∃ stderr, parse_custom_command_args v =
            .commandFailure "Invalid script arguments provided" stderr ∧
          ∃ pre post, "Invalid script arguments provided" =
            pre ++ "Invalid script arguments" ++ post
      else if (consecutivePairs args).all (fun p => pyHashable p.1) then
        ∃ params, parse_custom_command_args v = .ok s params
      else
        ∃ msg, parse_custom_command_args v = .typeError msg := by
  cases v with
  | list elems =>
    cases elems with
    | nil => exact ⟨_, rfl⟩
    | cons x xs =>
      cases xs with
      | nil => cases x <;> exact ⟨_, rfl⟩
      | cons y ys =>
        cases ys with
        | cons z zs => cases x <;> exact ⟨_, rfl⟩
        | nil =>
          cases x with
          | str s =>
            cases hiter : asIterable y with
            | none =>
              simp only [wellFormedArgs, hiter, Option.map]
              exact ⟨"Arguments must be a list-like container",
                by simp [parse_custom_command_args, hiter]⟩
            | some args =>
              simp only [wellFormedArgs, hiter, Option.map]
              by_cases hodd : args.length % 2 = 1
              · rw [if_pos hodd]
                refine ⟨"The script arguments must be a list of key-value pairs, got "
                  ++ toString args.length ++ " elements", ?_, "", " provided", rfl⟩
                have hne : args.length % 2 ≠ 0 := by omega
                simp [parse_custom_command_args, hiter, hne]
              · have heven : ¬ args.length % 2 ≠ 0 := by omega
                rw [if_neg hodd]
                by_cases hhash :
                    (consecutivePairs args).all (fun p => pyHashable p.1) = true
                · rw [if_pos hhash]
                  have hall : ∀ p ∈ consecutivePairs args, pyHashable p.1 = true := by
                    simpa [List.all_eq_true] using hhash
                  exact ⟨(consecutivePairs args).foldl (fun d p => dictInsert d p.1 p.2) [], by
                    simp [parse_custom_command_args, hiter, heven,
                      dictFoldFrom_ok _ _ hall]⟩
                · rw [if_neg hhash]
                  have hnot : ¬ ∀ p ∈ consecutivePairs args, pyHashable p.1 = true := by
                    simpa [List.all_eq_true] using hhash
                  obtain ⟨e, he⟩ := dictFoldFrom_error (consecutivePairs args) [] hnot
                  exact ⟨"unhashable type: " ++ e,
                    by simp [parse_custom_command_args, hiter, heven, he]⟩
          | bytes b => exact ⟨_, rfl⟩
          | int n => exact ⟨_, rfl⟩
          | bool b => exact ⟨_, rfl⟩
          | pynone => exact ⟨_, rfl⟩
          | list l => exact ⟨_, rfl⟩
          | tuple t => exact ⟨_, rfl⟩
  | str s => exact ⟨_, rfl⟩
  | bytes b => exact ⟨_, rfl⟩
  | int n => exact ⟨_, rfl⟩
  | bool b => exact ⟨_, rfl⟩
  | pynone => exact ⟨_, rfl⟩
  | tuple t => exact ⟨_, rfl⟩

/-! ## Claim C1: the command dispatch bridge reports failures exactly once -/

/-- C1: for every command handler invocation dispatched through the bridge,
a handler raising the structured CommandFailure with summary S and detail D
makes the wrapper call the result continuation exactly once with the FAILURE
code, S as execution_status_details and D as stderr, verbatim; a handler
raising any other exception with message E makes the wrapper call the
continuation exactly once with the FAILURE code, the generic summary, and E
as stderr — or the exception's class name when E is the empty string; in
both cases the wrapper returns normally, so no exception propagates to the
caller of the registered entry point. -/
theorem handler_wrapper_reports_failures :
    (∀ S D : String,
      handler_wrapper (.raises (.CommandFailure S D)) =
        .ok [{ result_code := .FAILURE
               execution_status_details := some S
               stdout := none
               stderr := some D }]) ∧
    (∀ cls E : String,
      handler_wrapper (.raises (.other cls E)) =
        .ok [{ result_code := .FAILURE
               execution_status_details := some "An error occurred executing custom command"
               stdout := none
               stderr := some (if E = "" then cls else E) }]) :=
  ⟨fun _ _ => rfl, fun _ _ => rfl⟩

/-! ## Claim C6: the paced loop survives callback errors -/

/-- C6: running the paced loop over any finite schedule of iteration
environments executes every iteration up to the first one that observes the
stop flag — an iteration whose body raises is recorded with the 1 second
cooldown and the loop proceeds to the next iteration — and the loop
terminates exactly when some iteration observes the stop flag set, never
because of a callback error. -/
theorem run_loop_never_dies_of_errors (envs : List FleetConnector.LoopIterationEnv) :
    FleetConnector.run_loop envs =
      ((envs.takeWhile (fun e => !e.stop_is_set)).map
          (fun e => { body_raised := e.body_raises, cooldown_slept := e.body_raises }),
       envs.any (fun e => e.stop_is_set)) := by
  induction envs with
  | nil => rfl
  | cons env rest ih =>
    cases h : env.stop_is_set <;>
      simp [FleetConnector.run_loop, h, ih, List.takeWhile_cons]

/-! ## Claim C7: stop raises on timeout and returns otherwise -/

/-- C7: with the worker thread running, a stop whose worker fails to exit
within the bounded 5 second join raises the fatal condition whose message
contains "did not stop in time" (and returns control to the caller, since the
join is bounded); a stop whose worker exits within the bound returns normally
without raising. -/
theorem stop_timeout_behavior (s : FleetConnector.ConnectorState)
    (h : s.thread_status = .running) :
    (FleetConnector.stop s false = .timeoutError "Thread did not stop in time" ∧
     ∃ pre post, "Thread did not stop in time" = pre ++ "did not stop in time" ++ post) ∧
    (∃ s2, FleetConnector.stop s true = .ok s2) := by
  refine ⟨⟨?_, "Thread ", "", rfl⟩,
    ⟨{ s with stop_event_is_set := true, thread_status := .finished }, ?_⟩⟩ <;>
    simp [FleetConnector.stop, h]

/-- C7 (witness): evaluation of both stop outcomes at a concrete running
state. -/
theorem stop_timeout_behavior_witness :
    (FleetConnector.ConnectorState.mk .running 1 1 false).thread_status = .running ∧
    (FleetConnector.stop ⟨.running, 1, 1, false⟩ false =
        .timeoutError "Thread did not stop in time" ∧
      ∃ pre post, "Thread did not stop in time" = pre ++ "did not stop in time" ++ post) ∧
    (∃ s2, FleetConnector.stop ⟨.running, 1, 1, false⟩ true = .ok s2) :=
  ⟨rfl, (stop_timeout_behavior ⟨.running, 1, 1, false⟩ rfl).1,
    (stop_timeout_behavior ⟨.running, 1, 1, false⟩ rfl).2⟩

/-! ## Claim C4: start/stop reentrancy -/

/-- C4 (counterexample): the claim states that stop() invoked while the
orchestrator is Stopped — including before start() was ever called — is a
no-op that returns without raising.  On the freshly constructed state the
worker Thread object was never started, and `Thread.join` raises
RuntimeError("cannot join thread before it is started"), so stop() before
start() raises instead of returning. -/
theorem stop_before_start_raises_counterexample :
    FleetConnector.stop FleetConnector.initState true =
      .runtimeError "cannot join thread before it is started" := rfl

/-- C4 (amended): start() invoked while the worker thread is alive is a
no-op (the whole state, in particular the number of threads ever spawned and
the current thread identity, is unchanged); stop() invoked after the worker
thread has been started and has exited is a no-op apart from setting the
stop flag and returns without raising; but stop() invoked before start() was
ever called raises a RuntimeError from joining the never-started thread. -/
theorem start_stop_reentrancy (s : FleetConnector.ConnectorState) (b : Bool) :
    (FleetConnector.is_alive s = true → FleetConnector.start s = s) ∧
    (s.thread_status = .finished →
      FleetConnector.stop s b = .ok { s with stop_event_is_set := true }) ∧
    (s.thread_status = .unstarted →
      FleetConnector.stop s b = .runtimeError "cannot join thread before it is started") := by
  refine ⟨fun h => ?_, fun h => ?_, fun h => ?_⟩ <;>
    simp [FleetConnector.start, FleetConnector.stop, h]

/-- C4 (witness): evaluation of the three reentrancy facts at concrete
states. -/
theorem start_stop_reentrancy_witness :
    FleetConnector.start ⟨.running, 1, 1, false⟩ = ⟨.running, 1, 1, false⟩ ∧
    FleetConnector.stop ⟨.finished, 1, 1, true⟩ true = .ok ⟨.finished, 1, 1, true⟩ ∧
    FleetConnector.stop FleetConnector.initState false =
      .runtimeError "cannot join thread before it is started" :=
  ⟨(start_stop_reentrancy ⟨.running, 1, 1, false⟩ true).1 rfl,
   (start_stop_reentrancy ⟨.finished, 1, 1, true⟩ true).2.1 rfl,
   (start_stop_reentrancy FleetConnector.initState false).2.2 rfl⟩

/-! ## Claim C8: fleet validation -/

theorem dedup_length_eq_length_iff (l : List String) :
    l.dedup.length = l.length ↔ l.Nodup := by
  constructor
  · intro h
    have he : l.dedup = l := (List.dedup_sublist l).eq_of_length h
    rw [← he]
    exact l.nodup_dedup
  · intro h
    rw [List.dedup_eq_self.mpr h]

/-- C8: the fleet field validators accept a fleet exactly when it is
non-empty and its robot ids are pairwise distinct, and on every fleet they
either accept it unchanged or raise a validation error — so construction
fails for an empty fleet or duplicate robot ids, and every configuration that
passes construction has a non-empty fleet of pairwise-distinct robot ids. -/
theorem validate_fleet_characterization (fleet : List RobotConfig) :
    (validate_fleet fleet = .ok fleet ↔
      fleet ≠ [] ∧ (fleet.map (fun r => r.robot_id)).Nodup) ∧
    (validate_fleet fleet = .ok fleet ∨ ∃ msg, validate_fleet fleet = .error msg) := by
  by_cases h1 : fleet.length < 1
  · have hnil : fleet = [] := List.length_eq_zero.mp (by omega)
    constructor
    · constructor
      · intro h
        simp [validate_fleet, must_contain_at_least_one_robot, h1] at h
      · intro ⟨hne, _⟩
        exact absurd hnil hne
    · exact Or.inr ⟨"Fleet must contain at least one robot",
        by simp [validate_fleet, must_contain_at_least_one_robot, h1]⟩
  · by_cases h2 : (fleet.map (fun r => r.robot_id)).dedup.length ≠ fleet.length
    · constructor
      · constructor
        · intro h
          simp [validate_fleet, must_contain_at_least_one_robot, h1,
            robot_ids_must_be_unique, h2] at h
        · intro ⟨_, hnodup⟩
          exact absurd (by
            rw [dedup_length_eq_length_iff (fleet.map (fun r => r.robot_id)) |>.mpr hnodup,
              List.length_map]) h2
      · exact Or.inr ⟨"Robot ids must be unique",
          by simp [validate_fleet, must_contain_at_least_one_robot, h1,
            robot_ids_must_be_unique, h2]⟩
    · push_neg at h2
      have hok : validate_fleet fleet = .ok fleet := by
        simp [validate_fleet, must_contain_at_least_one_robot, h1,
          robot_ids_must_be_unique, h2]
      constructor
      · constructor
        · intro _
          refine ⟨fun hnil => by simp [hnil] at h1, ?_⟩
          have : (fleet.map (fun r => r.robot_id)).dedup.length =
              (fleet.map (fun r => r.robot_id)).length := by
            rw [List.length_map]; exact h2
          exact (dedup_length_eq_length_iff _).mp this
        · intro _
          exact hok
      · exact Or.inl hok

/-! ## Claim C9: map fetch deduplication (modelled from the spec) -/

/-- C9: for a pair that is not yet pending and a running execution context,
the first fetch request schedules exactly one task and adds the pair to the
pending set; a second request for the same pair issued before completion is a
no-op; and after the fetch-and-publish task completes — whether the fetch
succeeded or failed — the pair has been removed from the pending set exactly
once (its multiplicity drops from one to zero). -/
theorem schedule_map_fetch_dedup (s : FleetConnector.FetchCoordinatorState)
    (robot frame : String)
    (h : (robot, frame) ∉ s.pending_map_fetches) :
    (FleetConnector.schedule_map_fetch true s robot frame).scheduled_tasks =
      s.scheduled_tasks ++ [(robot, frame)] ∧
    FleetConnector.schedule_map_fetch true
        (FleetConnector.schedule_map_fetch true s robot frame) robot frame =
      FleetConnector.schedule_map_fetch true s robot frame ∧
    (FleetConnector.schedule_map_fetch true s robot frame).pending_map_fetches.count
      (robot, frame) = 1 ∧
    ∀ b, ((FleetConnector.fetch_and_publish_map_complete
        (FleetConnector.schedule_map_fetch true s robot frame) robot
        frame b).pending_map_fetches).count (robot, frame) = 0 := by
  have hsched : FleetConnector.schedule_map_fetch true s robot frame =
      { pending_map_fetches := (robot, frame) :: s.pending_map_fetches
        scheduled_tasks := s.scheduled_tasks ++ [(robot, frame)] } := by
    simp [FleetConnector.schedule_map_fetch, h]
  have hcount0 : s.pending_map_fetches.count (robot, frame) = 0 :=
    List.count_eq_zero.mpr h
  refine ⟨by rw [hsched], ?_, ?_, ?_⟩
  · rw [hsched]
    simp [FleetConnector.schedule_map_fetch]
  · rw [hsched]
    simp [List.count_cons_self, hcount0]
  · intro b
    rw [hsched]
    simp [FleetConnector.fetch_and_publish_map_complete, List.erase_cons_head, hcount0]

/-- C9 (witness): evaluation of the dedup facts starting from the empty
pending set. -/
theorem schedule_map_fetch_dedup_witness :
    ("robot1", "frame1") ∉ (FleetConnector.FetchCoordinatorState.mk [] []).pending_map_fetches ∧
    (FleetConnector.schedule_map_fetch true ⟨[], []⟩ "robot1" "frame1").scheduled_tasks =
      [("robot1", "frame1")] ∧
    FleetConnector.schedule_map_fetch true
        (FleetConnector.schedule_map_fetch true ⟨[], []⟩ "robot1" "frame1") "robot1" "frame1" =
      FleetConnector.schedule_map_fetch true ⟨[], []⟩ "robot1" "frame1" ∧
    ∀ b, ((FleetConnector.fetch_and_publish_map_complete
        (FleetConnector.schedule_map_fetch true ⟨[], []⟩ "robot1" "frame1")
        "robot1" "frame1" b).pending_map_fetches).count ("robot1", "frame1") = 0 :=
  ⟨by decide,
   (schedule_map_fetch_dedup ⟨[], []⟩ "robot1" "frame1" (by decide)).1,
   (schedule_map_fetch_dedup ⟨[], []⟩ "robot1" "frame1" (by decide)).2.1,
   (schedule_map_fetch_dedup ⟨[], []⟩ "robot1" "frame1" (by decide)).2.2.2⟩

/-! ## Claim C5: pose publishing triggers exactly one map publish per frame change -/

theorem lookup_alSet_self (l : List (String × String)) (k v : String) :
    (FleetConnector.alSet l k v).lookup k = some v := by
  induction l with
  | nil => simp [FleetConnector.alSet, List.lookup]
  | cons p rest ih =>
    obtain ⟨pk, pv⟩ := p
    by_cases h : pk = k
    · simp [FleetConnector.alSet, h, List.lookup]
    · have hb : (pk == k) = false := beq_eq_false_iff_ne.mpr h
      have hb2 : (k == pk) = false := beq_eq_false_iff_ne.mpr (Ne.symm h)
      simp [FleetConnector.alSet, hb, List.lookup, hb2, ih]

/-- C5: for a robot and a frame id present in the maps configuration, a pose
publish whose frame id differs from the robot's last published frame id
publishes exactly one map (on that robot's session, before the pose) and
then the pose; the resulting state records the frame id, so a subsequent
pose publish with the same frame id publishes zero maps and just the pose;
and regardless of state and frame id, every pose publish call ends with
exactly one pose message, preceded only by map messages. -/
theorem publish_robot_pose_map_once (cfg : ConnectorConfig)
    (s : FleetConnector.PublishState) (robot frame : String) (m : MapConfig)
    (x y yaw : Rat)
    (hm : cfg.maps.lookup frame = some m)
    (hnew : s.last_published_frame_ids.lookup robot ≠ some frame) :
    FleetConnector.publish_robot_pose cfg s robot x y yaw (some frame) =
      ({ last_published_frame_ids :=
           FleetConnector.alSet s.last_published_frame_ids robot frame },
       [.mapPublish robot m.file m.map_id m.map_label frame m.origin_x m.origin_y
          m.resolution true,
        .posePublish robot x y yaw (some frame)]) ∧
    (∀ x2 y2 yaw2 : Rat,
      FleetConnector.publish_robot_pose cfg
        { last_published_frame_ids :=
            FleetConnector.alSet s.last_published_frame_ids robot frame }
        robot x2 y2 yaw2 (some frame) =
      ({ last_published_frame_ids :=
           FleetConnector.alSet s.last_published_frame_ids robot frame },
       [.posePublish robot x2 y2 yaw2 (some frame)])) ∧
    (∀ (s3 : FleetConnector.PublishState) (fid : Option String),
      ∃ pre, (FleetConnector.publish_robot_pose cfg s3 robot x y yaw fid).2 =
          pre ++ [.posePublish robot x y yaw fid] ∧
        ∀ e ∈ pre, e.isMap = true) := by
  refine ⟨?_, ?_, ?_⟩
  · have hne : some frame ≠ s.last_published_frame_ids.lookup robot :=
      fun hc => hnew hc.symm
    simp [FleetConnector.publish_robot_pose, hne, FleetConnector.publish_robot_map, hm]
  · intro x2 y2 yaw2
    have hsame : ¬ (some frame ≠
        (FleetConnector.alSet s.last_published_frame_ids robot frame).lookup robot) := by
      rw [lookup_alSet_self]
      exact fun hc => hc rfl
    simp only [FleetConnector.publish_robot_pose]
    rw [if_neg hsame]
  · intro s3 fid
    by_cases hc : fid ≠ s3.last_published_frame_ids.lookup robot
    · cases fid with
      | none =>
        exact ⟨[], by simp [FleetConnector.publish_robot_pose, hc,
          FleetConnector.publish_robot_map], by simp⟩
      | some f =>
        cases hm2 : cfg.maps.lookup f with
        | none =>
          exact ⟨[], by simp [FleetConnector.publish_robot_pose, hc,
            FleetConnector.publish_robot_map, hm2], by simp⟩
        | some m2 =>
          refine ⟨[.mapPublish robot m2.file m2.map_id m2.map_label f m2.origin_x
            m2.origin_y m2.resolution true], ?_, ?_⟩
          · simp [FleetConnector.publish_robot_pose, hc,
              FleetConnector.publish_robot_map, hm2]
          · intro e he
            simp at he
            rw [he]
            rfl
    · exact ⟨[], by simp [FleetConnector.publish_robot_pose, hc], by simp⟩

/-- C5 (witness): evaluation on a one-map configuration starting from an
empty last-published table: the first pose publish sends the map then the
pose, the second sends only the pose. -/
theorem publish_robot_pose_map_once_witness :
    (ConnectorConfig.mk none "https://valid.com/" "t" 1 "UTC" none none none
        [("frame1", ⟨"map1", none, 0, 0, 1, 2, "map.png"⟩)] []
        [{ robot_id := "robot1" }]).maps.lookup "frame1" =
      some ⟨"map1", none, 0, 0, 1, 2, "map.png"⟩ ∧
    (FleetConnector.PublishState.mk []).last_published_frame_ids.lookup "robot1" ≠
      some "frame1" ∧
    FleetConnector.publish_robot_pose
        (ConnectorConfig.mk none "https://valid.com/" "t" 1 "UTC" none none none
          [("frame1", ⟨"map1", none, 0, 0, 1, 2, "map.png"⟩)] []
          [{ robot_id := "robot1" }])
        ⟨[]⟩ "robot1" 3 4 5 (some "frame1") =
      (⟨[("robot1", "frame1")]⟩,
       [.mapPublish "robot1" "map.png" "map1" none "frame1" 0 0 1 true,
        .posePublish "robot1" 3 4 5 (some "frame1")]) ∧
    FleetConnector.publish_robot_pose
        (ConnectorConfig.mk none "https://valid.com/" "t" 1 "UTC" none none none
          [("frame1", ⟨"map1", none, 0, 0, 1, 2, "map.png"⟩)] []
          [{ robot_id := "robot1" }])
        ⟨[("robot1", "frame1")]⟩ "robot1" 6 7 8 (some "frame1") =
      (⟨[("robot1", "frame1")]⟩,
       [.posePublish "robot1" 6 7 8 (some "frame1")]) := by
  refine ⟨rfl, by decide, ?_, ?_⟩
  · exact (publish_robot_pose_map_once
      (ConnectorConfig.mk none "https://valid.com/" "t" 1 "UTC" none none none
        [("frame1", ⟨"map1", none, 0, 0, 1, 2, "map.png"⟩)] []
        [{ robot_id := "robot1" }])
      ⟨[]⟩ "robot1" "frame1"
      ⟨"map1", none, 0, 0, 1, 2, "map.png"⟩ 3 4 5 rfl (by decide)).1
  · exact (publish_robot_pose_map_once
      (ConnectorConfig.mk none "https://valid.com/" "t" 1 "UTC" none none none
        [("frame1", ⟨"map1", none, 0, 0, 1, 2, "map.png"⟩)] []
        [{ robot_id := "robot1" }])
      ⟨[]⟩ "robot1" "frame1"
      ⟨"map1", none, 0, 0, 1, 2, "map.png"⟩ 6 7 8 rfl (by decide)).2.1 6 7 8

/-! ## Claim C10: to_singular_config selects exactly the requested robot -/

theorem filter_robot_id_nil_or_singleton (fleet : List RobotConfig) (rid : String)
    (h : (fleet.map (fun r => r.robot_id)).Nodup) :
    fleet.filter (fun r => r.robot_id == rid) = [] ∨
    ∃ r, r ∈ fleet ∧ r.robot_id = rid ∧
      fleet.filter (fun r => r.robot_id == rid) = [r] := by
  induction fleet with
  | nil => exact Or.inl rfl
  | cons a l ih =>
    rw [List.map_cons, List.nodup_cons] at h
    obtain ⟨hna, hnd⟩ := h
    by_cases ha : a.robot_id = rid
    · right
      refine ⟨a, List.mem_cons_self a l, ha, ?_⟩
      have hfl : l.filter (fun r => r.robot_id == rid) = [] := by
        rw [List.filter_eq_nil_iff]
        intro r hr hc
        exact hna (by
          rw [List.mem_map]
          exact ⟨r, hr, by rw [eq_of_beq hc, ha]⟩)
      simp [List.filter_cons, ha, hfl]
    · have hb : (a.robot_id == rid) = false := beq_eq_false_iff_ne.mpr ha
      rcases ih hnd with h0 | ⟨r, hr, hrid, hfl⟩
      · exact Or.inl (by simp [List.filter_cons, hb, h0])
      · exact Or.inr ⟨r, List.mem_cons_of_mem a hr, hrid,
          by simp [List.filter_cons, hb, hfl]⟩

theorem validate_fleet_singleton (r : RobotConfig) : validate_fleet [r] = .ok [r] := by
  simp [validate_fleet, must_contain_at_least_one_robot, robot_ids_must_be_unique,
    List.dedup_cons_of_not_mem, List.dedup_nil]

/-- C10: on a configuration whose robot ids are pairwise distinct (which
construction validates), `to_singular_config robot_id` returns a
configuration identical to the original except that its fleet is exactly the
single entry carrying the requested robot id, and it raises a ValueError
exactly when no fleet entry carries that robot id — so constructing a
single-robot Connector with an absent robot id fails before any session is
created. -/
theorem to_singular_config_characterization (c : ConnectorConfig) (rid : String)
    (h : (c.fleet.map (fun r => r.robot_id)).Nodup) :
    ((∃ r ∈ c.fleet, r.robot_id = rid) →
      ∃ r, r ∈ c.fleet ∧ r.robot_id = rid ∧
        c.to_singular_config rid = .ok { c with fleet := [r] }) ∧
    ((¬ ∃ r ∈ c.fleet, r.robot_id = rid) →
      ∃ msg, c.to_singular_config rid = .error msg) := by
  rcases filter_robot_id_nil_or_singleton c.fleet rid h with h0 | ⟨r, hr, hrid, hfl⟩
  · constructor
    · intro ⟨r, hr, hrid⟩
      exfalso
      have : r ∈ c.fleet.filter (fun r => r.robot_id == rid) :=
        List.mem_filter.mpr ⟨hr, by rw [hrid]; exact beq_self_eq_true rid⟩
      rw [h0] at this
      cases this
    · intro _
      cases he : c.to_singular_config rid with
      | error msg => exact ⟨msg, rfl⟩
      | ok d =>
        rw [ConnectorConfig.to_singular_config] at he
        simp [h0] at he
  · constructor
    · intro _
      refine ⟨r, hr, hrid, ?_⟩
      rw [ConnectorConfig.to_singular_config]
      simp [hfl, validate_fleet_singleton]
    · intro hno
      exact absurd ⟨r, hr, hrid⟩ hno

/-- C10 (witness): on a two-robot configuration, filtering to "robot1"
yields the one-robot configuration with all other fields preserved, and
filtering to an absent id raises. -/
theorem to_singular_config_characterization_witness :
    ((ConnectorConfig.mk none "https://valid.com/" "t" 1 "UTC" none none none [] []
        [{ robot_id := "robot1" }, { robot_id := "robot2" }]).fleet.map
      (fun r => r.robot_id)).Nodup ∧
    (∃ r, r ∈ [RobotConfig.mk "robot1" [], RobotConfig.mk "robot2" []] ∧
      r.robot_id = "robot1" ∧
      (ConnectorConfig.mk none "https://valid.com/" "t" 1 "UTC" none none none [] []
        [{ robot_id := "robot1" }, { robot_id := "robot2" }]).to_singular_config
          "robot1" =
        .ok (ConnectorConfig.mk none "https://valid.com/" "t" 1 "UTC" none none none
          [] [] [r])) ∧
    (∃ msg,
      (ConnectorConfig.mk none "https://valid.com/" "t" 1 "UTC" none none none [] []
        [{ robot_id := "robot1" }, { robot_id := "robot2" }]).to_singular_config
          "robot3" =
        .error msg) := by
  refine ⟨by decide, ?_, ?_⟩
  · exact (to_singular_config_characterization
      (ConnectorConfig.mk none "https://valid.com/" "t" 1 "UTC" none none none [] []
        [{ robot_id := "robot1" }, { robot_id := "robot2" }]) "robot1" (by decide)).1
      ⟨⟨"robot1", []⟩, by decide, rfl⟩
  · exact (to_singular_config_characterization
      (ConnectorConfig.mk none "https://valid.com/" "t" 1 "UTC" none none none [] []
        [{ robot_id := "robot1" }, { robot_id := "robot2" }]) "robot3" (by decide)).2
      (by decide)
